import Mathlib

set_option maxRecDepth 100000

/-!
Shallow embedding of the Autel flight-log binary record parser
(`autel_logger/parser/record_parser.py` together with the static field
catalog in `autel_logger/parser/types.py`).

Byte buffers are lists of naturals (one entry per byte).  Python integers
are `Nat`/`Int`.  IEEE-754 float fields are represented by their
little-endian bit patterns (a `Nat`), which keeps every decode bit-exact
and executable.  Python exceptions are modelled with `Except PyError`.
-/

/-- The Python exceptions the parser can raise. -/
inductive PyError where
  | structError
  | unicodeDecodeError
  | valueError (msg : String)
  | assertionError (msg : String)
  | keyError (key : String)
  | typeError (msg : String)
  | indexError
  | unknownRecordType (type_id : Nat) (offset : Nat) (context : List Nat)
  | nonTermination
deriving DecidableEq

/-- A decoded field value.  Floats carry their raw little-endian bit
pattern (`f32`/`f64`/`farr`) so decoding is bit-exact. -/
inductive Value where
  | i (n : Nat)
  | f32 (bits : Nat)
  | f64 (bits : Nat)
  | s (str : String)
  | hexs (str : String)
  | farr (bits : List Nat)
deriving DecidableEq

/-- Little-endian value of a byte list. -/
def leVal (bs : List Nat) : Nat := bs.foldr (fun b acc => b + 256 * acc) 0

/-- `struct.unpack_from` semantics: reading past the end of the buffer
raises `struct.error`. -/
def read_bytes (data : List Nat) (offset len : Nat) : Except PyError (List Nat) :=
  if offset + len ≤ data.length then .ok ((data.drop offset).take len) else .error .structError

def read_uint8 (data : List Nat) (offset : Nat) : Except PyError Nat :=
  (read_bytes data offset 1).map leVal

def read_uint16 (data : List Nat) (offset : Nat) : Except PyError Nat :=
  (read_bytes data offset 2).map leVal

def read_uint32 (data : List Nat) (offset : Nat) : Except PyError Nat :=
  (read_bytes data offset 4).map leVal

def read_uint64 (data : List Nat) (offset : Nat) : Except PyError Nat :=
  (read_bytes data offset 8).map leVal

/-- Result is the binary32 bit pattern of the float read. -/
def read_float32 (data : List Nat) (offset : Nat) : Except PyError Nat :=
  (read_bytes data offset 4).map leVal

/-- Result is the binary64 bit pattern of the float read. -/
def read_float64 (data : List Nat) (offset : Nat) : Except PyError Nat :=
  (read_bytes data offset 8).map leVal

/-- Strict UTF-8 decoding, byte at a time.  `k` counts the continuation
bytes still expected, `lo`/`hi` bound the next byte (lead-specific for
the first continuation byte, which rules out overlong forms, surrogates
and values above `0x10FFFF`), `acc` accumulates the code point. -/
def utf8Aux : List Nat → Nat → Nat → Nat → Nat → Option (List Char)
  | [], 0, _, _, _ => some []
  | [], _ + 1, _, _, _ => none
  | b :: rest, 0, _, _, _ =>
    if b < 0x80 then (utf8Aux rest 0 0 0 0).map (fun cs => Char.ofNat b :: cs)
    else if b < 0xC2 then none
    else if b < 0xE0 then utf8Aux rest 1 0x80 0xC0 (b - 0xC0)
    else if b < 0xF0 then
      utf8Aux rest 2 (if b = 0xE0 then 0xA0 else 0x80) (if b = 0xED then 0xA0 else 0xC0)
        (b - 0xE0)
    else if b < 0xF5 then
      utf8Aux rest 3 (if b = 0xF0 then 0x90 else 0x80) (if b = 0xF4 then 0x90 else 0xC0)
        (b - 0xF0)
    else none
  | b :: rest, k + 1, lo, hi, acc =>
    if lo ≤ b ∧ b < hi then
      if k = 0 then
        (utf8Aux rest 0 0 0 0).map (fun cs => Char.ofNat (acc * 0x40 + (b - 0x80)) :: cs)
      else utf8Aux rest k 0x80 0xC0 (acc * 0x40 + (b - 0x80))
    else none

/-- Strict UTF-8 decoding (as Python's `bytes.decode('utf-8')`). -/
def utf8Decode (l : List Nat) : Option (List Char) := utf8Aux l 0 0 0 0

/-- `read_string`: read `length` raw bytes, truncate at the first null
byte, decode as UTF-8.  A negative length is rejected by `struct` when it
builds the format string. -/
def read_string (data : List Nat) (offset : Nat) (length : Int) : Except PyError String :=
  if length < 0 then .error .structError
  else
    match read_bytes data offset length.toNat with
    | .error e => .error e
    | .ok bs =>
      match utf8Decode (bs.takeWhile (fun b => b ≠ 0)) with
      | some cs => .ok cs.asString
      | none => .error .unicodeDecodeError

/-- Python's `hex` rendering of a nonnegative integer. -/
def pyHex (n : Nat) : String := "0x" ++ (Nat.toDigits 16 n).asString

/-- Python list-slice `l[a:b]` (with negative indices counted from the
end and out-of-range bounds clamped). -/
def pySlice (l : List Nat) (a b : Int) : List Nat :=
  let n : Int := l.length
  let a2 : Int := if a < 0 then max (n + a) 0 else min a n
  let b2 : Int := if b < 0 then max (n + b) 0 else min b n
  if a2 < b2 then (l.drop a2.toNat).take (b2 - a2).toNat else []

/-- The seven record kinds (`RecordTypeName` in `types.py`). -/
inductive RecordTypeName where
  | head
  | video
  | image
  | in_base
  | in_full
  | out_base
  | out_full
deriving DecidableEq

/-- `RECORD_TYPE_MAP`: the wire type-tag → record-kind dict, as the
(insertion-ordered) association list of its entries. -/
def RECORD_TYPE_MAP : List (Nat × RecordTypeName) :=
  [(0, .out_full), (1, .out_base), (2, .in_full), (3, .in_base),
   (6, .head), (15, .video), (14, .image)]

/-- Dict lookup in `RECORD_TYPE_MAP`. -/
def lookupTag (t : Nat) : Option RecordTypeName :=
  (RECORD_TYPE_MAP.find? (fun p => p.1 == t)).map (fun p => p.2)

def HeadKeys : List String :=
  ["aircraft_sn", "battery_sn", "location_name", "drone_type", "distance",
   "flight_time", "max_altitude", "video_time", "flight_at", "time_zone",
   "start_latitude", "start_longitude", "image_count", "video_count",
   "firmware_size", "firmware_info"]

def VideoKeys : List String :=
  ["media_filename", "media_timestamp", "latitude", "longitude", "duration"]

def ImageKeys : List String :=
  ["media_filename", "media_timestamp", "latitude", "longitude"]

def InBaseKeys : List String :=
  ["current_time", "drone_altitude", "x_speed", "y_speed", "z_speed",
   "gimbal_pitch", "gimbal_roll", "gimbal_yaw",
   "drone_pitch", "drone_roll", "drone_yaw",
   "m_left_horizontal", "m_left_vertical", "m_right_horizontal", "m_right_vertical",
   "rc_mode_state", "offline_duration", "rc_button_state", "phone_heading",
   "radar_info_timestamp", "front_radar_info", "rear_radar_info", "left_radar_info",
   "right_radar_info", "top_radar_info", "bottom_radar_info",
   "param_1", "param_2"]

def InFullKeys : List String :=
  ["current_time", "drone_altitude", "x_speed", "y_speed", "z_speed",
   "gimbal_pitch", "gimbal_roll", "gimbal_yaw",
   "drone_pitch", "drone_roll", "drone_yaw",
   "m_left_horizontal", "m_left_vertical", "m_right_horizontal", "m_right_vertical",
   "rc_mode_state", "offline_duration", "rc_button_state", "phone_heading",
   "radar_info_timestamp", "front_radar_info", "rear_radar_info", "left_radar_info",
   "right_radar_info", "top_radar_info", "bottom_radar_info",
   "flight_mode", "camera_mode", "rcRSSI", "m_mode", "drone_warning", "drone_ext_warning",
   "gimbal_warning", "time_left", "design_volume", "full_charge_volume",
   "current_electricity", "current_voltage", "current_current", "remain_power_percent",
   "battery_temperature",
   "battery_state", "number_of_discharges", "cell_count", "cell_voltages",
   "vision_warning", "vision_ext_warning", "vision_error_code",
   "max_flight_altitude", "go_home_altitude", "beginner_mode_enable",
   "low_battery_warning_threshold", "serious_battery_warning_threshold",
   "max_flight_radius", "max_flight_horizontal_speed", "obstacle_avoidance_enabled",
   "radar_enabled", "max_error",
   "param_1", "param_2", "param_3", "param_4", "param_5"]

def OutBaseKeys : List String :=
  ["current_time", "drone_latitude", "drone_longitude", "drone_altitude",
   "x_speed", "y_speed", "z_speed",
   "gimbal_pitch", "gimbal_roll", "gimbal_yaw",
   "drone_pitch", "drone_roll", "drone_yaw",
   "m_left_horizontal", "m_left_vertical", "m_right_horizontal", "m_right_vertical",
   "rc_mode_state", "offline_duration", "rc_button_state", "phone_heading",
   "radar_info_timestamp", "front_radar_info", "rear_radar_info", "left_radar_info",
   "right_radar_info", "top_radar_info", "bottom_radar_info",
   "param_1", "param_2"]

def OutFullKeys : List String :=
  ["current_time", "drone_latitude", "drone_longitude", "drone_altitude",
   "x_speed", "y_speed", "z_speed",
   "gimbal_pitch", "gimbal_roll", "gimbal_yaw",
   "drone_pitch", "drone_roll", "drone_yaw",
   "m_left_horizontal", "m_left_vertical", "m_right_horizontal", "m_right_vertical",
   "rc_mode_state", "offline_duration", "rc_button_state", "phone_heading",
   "radar_info_timestamp", "front_radar_info", "rear_radar_info", "left_radar_info",
   "right_radar_info", "top_radar_info", "bottom_radar_info",
   "flight_mode", "camera_mode", "gps_signal_level", "rcRSSI", "m_mode",
   "home_latitude", "home_longitude", "distance_from_home", "current_journey",
   "drone_warning", "drone_ext_warning", "gimbal_warning", "time_left",
   "back_time", "satellite_count", "design_volume", "full_charge_volume",
   "current_electricity", "current_voltage", "current_current",
   "remain_power_percent", "battery_temperature", "battery_state",
   "number_of_discharges", "cell_count", "cell_voltages",
   "vision_warning", "vision_ext_warning", "vision_error_code",
   "max_flight_altitude", "go_home_altitude", "beginner_mode_enable",
   "low_battery_warning_threshold", "serious_battery_warning_threshold",
   "max_flight_radius", "max_flight_horizontal_speed", "obstacle_avoidance_enabled",
   "radar_enabled", "max_error",
   "param_1", "param_2", "param_3", "param_4", "param_5"]

/-- `RecordKeyMap`: the ordered field list of each record kind. -/
def RecordKeyMap : RecordTypeName → List String
  | .head => HeadKeys
  | .video => VideoKeys
  | .image => ImageKeys
  | .in_base => InBaseKeys
  | .in_full => InFullKeys
  | .out_base => OutBaseKeys
  | .out_full => OutFullKeys

/-- `RECORD_SIZES` dict: field name → byte width (`none` models a
missing key, i.e. `KeyError` on access). -/
def RECORD_SIZES (key : String) : Option Int :=
  if key = "aircraft_sn" then some 18
  else if key = "battery_sn" then some 32
  else if key = "location_name" then some 64
  else if key = "drone_type" then some 1
  else if key = "distance" then some 4
  else if key = "flight_time" then some 4
  else if key = "max_altitude" then some 4
  else if key = "video_time" then some 4
  else if key = "flight_at" then some 8
  else if key = "time_zone" then some 4
  else if key = "start_latitude" then some 4
  else if key = "start_longitude" then some 4
  else if key = "image_count" then some 2
  else if key = "video_count" then some 2
  else if key = "firmware_size" then some 2
  else if key = "firmware_info" then some (-1)
  else if key = "current_time" then some 4
  else if key = "drone_altitude" then some 4
  else if key = "x_speed" then some 4
  else if key = "y_speed" then some 4
  else if key = "z_speed" then some 4
  else if key = "gimbal_pitch" then some 4
  else if key = "gimbal_roll" then some 4
  else if key = "gimbal_yaw" then some 4
  else if key = "drone_pitch" then some 4
  else if key = "drone_roll" then some 4
  else if key = "drone_yaw" then some 4
  else if key = "m_left_horizontal" then some 2
  else if key = "m_left_vertical" then some 2
  else if key = "m_right_horizontal" then some 2
  else if key = "m_right_vertical" then some 2
  else if key = "rc_mode_state" then some 1
  else if key = "offline_duration" then some 4
  else if key = "rc_button_state" then some 1
  else if key = "phone_heading" then some 8
  else if key = "radar_info_timestamp" then some 8
  else if key = "front_radar_info" then some 4
  else if key = "rear_radar_info" then some 4
  else if key = "left_radar_info" then some 4
  else if key = "right_radar_info" then some 4
  else if key = "top_radar_info" then some 4
  else if key = "bottom_radar_info" then some 4
  else if key = "param_1" then some 4
  else if key = "param_2" then some 4
  else if key = "flight_mode" then some 1
  else if key = "camera_mode" then some 1
  else if key = "rcRSSI" then some 1
  else if key = "m_mode" then some 1
  else if key = "drone_warning" then some 4
  else if key = "drone_ext_warning" then some 4
  else if key = "gimbal_warning" then some 4
  else if key = "time_left" then some 4
  else if key = "design_volume" then some 4
  else if key = "full_charge_volume" then some 4
  else if key = "current_electricity" then some 4
  else if key = "current_voltage" then some 4
  else if key = "current_current" then some 4
  else if key = "remain_power_percent" then some 1
  else if key = "battery_temperature" then some 4
  else if key = "battery_state" then some 1
  else if key = "number_of_discharges" then some 4
  else if key = "cell_count" then some 1
  else if key = "cell_voltages" then some 32
  else if key = "vision_warning" then some 4
  else if key = "vision_ext_warning" then some 4
  else if key = "vision_error_code" then some 4
  else if key = "max_flight_altitude" then some 4
  else if key = "go_home_altitude" then some 4
  else if key = "beginner_mode_enable" then some 1
  else if key = "low_battery_warning_threshold" then some 1
  else if key = "serious_battery_warning_threshold" then some 1
  else if key = "max_flight_radius" then some 4
  else if key = "max_flight_horizontal_speed" then some 4
  else if key = "obstacle_avoidance_enabled" then some 1
  else if key = "radar_enabled" then some 1
  else if key = "max_error" then some 4
  else if key = "param_3" then some 4
  else if key = "param_4" then some 4
  else if key = "param_5" then some 4
  else if key = "media_filename" then some 64
  else if key = "media_timestamp" then some 8
  else if key = "latitude" then some 4
  else if key = "longitude" then some 4
  else if key = "duration" then some 4
  else if key = "drone_latitude" then some 4
  else if key = "drone_longitude" then some 4
  else if key = "gps_signal_level" then some 1
  else if key = "home_latitude" then some 4
  else if key = "home_longitude" then some 4
  else if key = "distance_from_home" then some 4
  else if key = "current_journey" then some 4
  else if key = "back_time" then some 4
  else if key = "satellite_count" then some 1
  else none

/-- `RECORD_FORMATS` dict: explicit wire-encoding overrides
(`RECORD_FORMATS.get(key)` semantics). -/
def RECORD_FORMATS (key : String) : Option String :=
  if key = "flight_time" then some "i"
  else if key = "time_zone" then some "i"
  else if key = "media_timestamp" then some "i"
  else if key = "current_time" then some "i"
  else if key = "duration" then some "i"
  else if key = "offline_duration" then some "i"
  else if key = "phone_heading" then some "d"
  else if key = "radar_info_timestamp" then some "d"
  else if key = "back_time" then some "i"
  else if key = "design_volume" then some "i"
  else if key = "drone_ext_warning" then some "h"
  else if key = "drone_warning" then some "h"
  else if key = "full_charge_volume" then some "i"
  else if key = "gimbal_warning" then some "h"
  else if key = "max_error" then some "i"
  else if key = "number_of_discharges" then some "i"
  else if key = "vision_ext_warning" then some "h"
  else if key = "vision_warning" then some "h"
  else if key = "cell_voltages" then some "[f"
  else none

deriving instance DecidableEq for Except

/-- A Python dict of decoded fields, keeping insertion order. -/
abbrev Dict := List (String × Value)

/-- `dict.get(key)` -/
def dictGet (d : Dict) (key : String) : Option Value :=
  (List.find? (fun p => p.1 == key) d).map (fun p => p.2)

/-- `dict[key] = v` : overwrite in place when the key is present
(keeping its position), append otherwise. -/
def dictSet (d : Dict) (key : String) (v : Value) : Dict :=
  if List.any d (fun p => p.1 == key) then
    List.map (fun p => if p.1 == key then (key, v) else p) d
  else d ++ [(key, v)]

/-- The packed-float-array read
`[read_float32(data, offset + i * 4) for i in range(count)]`:
`count` consecutive binary32 reads, 4 bytes apart. -/
def read_float_array (data : List Nat) (offset : Nat) : Nat → Except PyError (List Nat)
  | 0 => .ok []
  | c + 1 =>
    match read_float32 data offset with
    | .error e => .error e
    | .ok v =>
      match read_float_array data (offset + 4) c with
      | .error e => .error e
      | .ok vs => .ok (v :: vs)

/-- `parse_record_item`: decode one statically-sized field at `offset`,
dispatching on the field's catalog width and format override.  Returns
`(value, size, offset + size)` as the source does. -/
def parse_record_item (data : List Nat) (offset : Nat) (record_type : RecordTypeName)
    (key : String) : Except PyError (Value × Int × Nat) :=
  match RECORD_SIZES key with
  | none => .error (.keyError key)
  | some size =>
    let fmt := RECORD_FORMATS key
    if size = 0 then
      .error (.valueError ("Unsupported key for record type with size 0: " ++ key))
    else
      let value : Except PyError Value :=
        if size = 1 then (read_uint8 data offset).map Value.i
        else if size = 2 then (read_uint16 data offset).map Value.i
        else if size = 4 then
          match fmt with
          | none => (read_float32 data offset).map Value.f32
          | some f =>
            if f = "h" then (read_uint32 data offset).map (fun n => Value.hexs (pyHex n))
            else if f = "i" then (read_uint32 data offset).map Value.i
            else (read_uint32 data offset).map Value.i
        else if size = 8 then
          match fmt with
          | none => (read_uint64 data offset).map Value.i
          | some f =>
            if f = "i" then (read_uint64 data offset).map Value.i
            else (read_float64 data offset).map Value.f64
        else
          match fmt with
          | none => (read_string data offset size).map Value.s
          | some f =>
            if f = "[f" then
              let count := (Int.fdiv size 4).toNat
              (read_float_array data offset count).map Value.farr
            else .error (.assertionError "fmt == [f")
      match value with
      | .error e => .error e
      | .ok v => .ok (v, size, offset + size.toNat)

/-- The flight-dynamics membership test
`record_type in ('in_base', 'in_full', 'out_base', 'out_full')`. -/
def isFlightKind : RecordTypeName → Bool
  | .in_base => true
  | .in_full => true
  | .out_base => true
  | .out_full => true
  | _ => false

/-- Numeric comparisons used by the timestamp-dedup branch.  In the
catalog `current_time` always decodes as an unsigned integer, so only
`Value.i` values are ever compared. -/
def valNe (a b : Value) : Bool :=
  match a, b with
  | .i m, .i n => m ≠ n
  | _, _ => false

def valGt (a b : Value) : Bool :=
  match a, b with
  | .i m, .i n => n < m
  | _, _ => false

/-- Python `isinstance(value, (int, float))`. -/
def isNumeric : Value → Bool
  | .i _ => true
  | .f32 _ => true
  | .f64 _ => true
  | _ => false

/-- The field loop of `parse_record`: walk the key list, decoding each
field at the running offset into the result dict, with the two irregular
cases (the dynamic-width `firmware_info` field and the flight-dynamics
`current_time` dedup). -/
def parseLoop (data : List Nat) (record_type : RecordTypeName) :
    List String → Nat → Dict → Except PyError (Dict × Nat)
  | [], offset, result => .ok (result, offset)
  | key :: rest, offset, result =>
    if key = "firmware_info" then
      if record_type = .head then
        match dictGet result "firmware_size" with
        | none => .error (.keyError "firmware_size")
        | some v =>
          match v with
          | .i size =>
            if size ≤ 1 then
              .error (.assertionError ("Invalid firmware size: " ++ toString size))
            else
              match read_string data offset (size : Int) with
              | .error e => .error e
              | .ok str =>
                parseLoop data record_type rest (offset + size) (dictSet result key (.s str))
          | _ => .error (.typeError "firmware_size is not an integer")
      else .error (.assertionError "record_type is not head")
    else
      match parse_record_item data offset record_type key with
      | .error e => .error e
      | .ok (value, _, new_offset) =>
        let dedup : Bool :=
          isFlightKind record_type && key == "current_time" &&
            (match dictGet result "current_time" with
             | some cur_time => isNumeric value && valNe cur_time value
             | none => false)
        if dedup then
          let result2 :=
            match dictGet result "current_time" with
            | some cur_time =>
              if valGt cur_time value then dictSet result "current_time" value else result
            | none => result
          parseLoop data record_type rest new_offset result2
        else
          parseLoop data record_type rest new_offset (dictSet result key value)

/-- `parse_record`: decode one record of the given kind starting at
`offset`; returns the field dict and the offset one past the record. -/
def parse_record (data : List Nat) (record_type : RecordTypeName) (offset : Nat) :
    Except PyError (Dict × Nat) :=
  parseLoop data record_type (RecordKeyMap record_type) offset []

/-- `UnknownRecordTypeError` is raised with the offending tag, its
offset, and the surrounding raw bytes `data[offset-10:offset+10]`. -/
def get_record_type_from_offset (data : List Nat) (offset : Nat) :
    Except PyError RecordTypeName :=
  match read_uint8 data offset with
  | .error e => .error e
  | .ok type_id =>
    match lookupTag type_id with
    | none =>
      .error (.unknownRecordType type_id offset
        (pySlice data ((offset : Int) - 10) ((offset : Int) + 10)))
    | some record_type => .ok record_type

/-- The accumulation loop of `get_total_record_size`. -/
def sumKeysLoop : List String → Int → Except PyError Int
  | [], total_size => .ok total_size
  | key :: rest, total_size =>
    match RECORD_SIZES key with
    | none => .error (.keyError key)
    | some size =>
      if size = 0 then
        .error (.valueError ("Unsupported key with size 0: " ++ key))
      else sumKeysLoop rest (total_size + size)

/-- `get_total_record_size`: sum of the catalog widths of a kind's keys,
raising on a zero width. -/
def get_total_record_size (record_type : RecordTypeName) : Except PyError Int :=
  sumKeysLoop (RecordKeyMap record_type) 0

/-- `RecordTrack`: kind name, fixed total size, and the offsets collected
by the scanner. -/
structure RecordTrack where
  name : RecordTypeName
  size : Int
  offsets : List Nat
deriving DecidableEq

/-- The `record_tracks` dict, keyed by the seven record kinds. -/
structure Tracks where
  out_full : RecordTrack
  out_base : RecordTrack
  in_full : RecordTrack
  in_base : RecordTrack
  head : RecordTrack
  video : RecordTrack
  image : RecordTrack
deriving DecidableEq

def Tracks.get (t : Tracks) : RecordTypeName → RecordTrack
  | .out_full => t.out_full
  | .out_base => t.out_base
  | .in_full => t.in_full
  | .in_base => t.in_base
  | .head => t.head
  | .video => t.video
  | .image => t.image

def Tracks.set (t : Tracks) (k : RecordTypeName) (tr : RecordTrack) : Tracks :=
  match k with
  | .out_full => { t with out_full := tr }
  | .out_base => { t with out_base := tr }
  | .in_full => { t with in_full := tr }
  | .in_base => { t with in_base := tr }
  | .head => { t with head := tr }
  | .video => { t with video := tr }
  | .image => { t with image := tr }

/-- `record_track.append(offset)` on the track of kind `k`. -/
def appendTrack (t : Tracks) (k : RecordTypeName) (offset : Nat) : Tracks :=
  Tracks.set t k { Tracks.get t k with offsets := (Tracks.get t k).offsets ++ [offset] }

/-- The track-dict comprehension in `get_record_tracks`: one empty track
per kind in `RECORD_TYPE_MAP` insertion order, sized by
`get_total_record_size`. -/
def initTracks : Except PyError Tracks :=
  match get_total_record_size .out_full with
  | .error e => .error e
  | .ok s_out_full =>
  match get_total_record_size .out_base with
  | .error e => .error e
  | .ok s_out_base =>
  match get_total_record_size .in_full with
  | .error e => .error e
  | .ok s_in_full =>
  match get_total_record_size .in_base with
  | .error e => .error e
  | .ok s_in_base =>
  match get_total_record_size .head with
  | .error e => .error e
  | .ok s_head =>
  match get_total_record_size .video with
  | .error e => .error e
  | .ok s_video =>
  match get_total_record_size .image with
  | .error e => .error e
  | .ok s_image =>
    .ok ⟨⟨.out_full, s_out_full, []⟩, ⟨.out_base, s_out_base, []⟩,
         ⟨.in_full, s_in_full, []⟩, ⟨.in_base, s_in_base, []⟩,
         ⟨.head, s_head, []⟩, ⟨.video, s_video, []⟩, ⟨.image, s_image, []⟩⟩

/-- The scan loop of `get_record_tracks` (`while offset < len(buffer)`),
with a fuel parameter standing in for nontermination of the Python
loop; each executed iteration consumes one unit. -/
def scanLoop (data : List Nat) : Nat → Tracks → Nat → Except PyError Tracks
  | 0, _, _ => .error .nonTermination
  | fuel + 1, record_tracks, offset =>
    if offset < data.length then
      match get_record_type_from_offset data offset with
      | .error e => .error e
      | .ok record_type =>
        let record_tracks2 := appendTrack record_tracks record_type offset
        scanLoop data fuel record_tracks2
          (offset + ((Tracks.get record_tracks2 record_type).size + 1).toNat)
    else .ok record_tracks

/-- `get_record_tracks`: decode the head record at offset 14, seed the
head track with 14, then scan the rest of the buffer by tag. -/
def get_record_tracks (in_data : List Nat) : Except PyError Tracks :=
  match parse_record in_data .head 14 with
  | .error e => .error e
  | .ok (_head_info, head_offset) =>
    match initTracks with
    | .error e => .error e
    | .ok record_tracks =>
      scanLoop in_data (in_data.length + 1) (appendTrack record_tracks .head 14) head_offset

/-- The `records` result dict (`ParsedRecordsTD`). -/
structure ParsedRecords where
  head : Dict
  in_full : List Dict
  in_base : List Dict
  out_full : List Dict
  out_base : List Dict
  video : List Dict
  image : List Dict
deriving DecidableEq

/-- `records[record_type].append(record)` for the six non-head kinds
(the loop in `parse_log_data` skips `head`, so that case is inert). -/
def appendParsed (r : ParsedRecords) (k : RecordTypeName) (d : Dict) : ParsedRecords :=
  match k with
  | .head => r
  | .in_full => { r with in_full := r.in_full ++ [d] }
  | .in_base => { r with in_base := r.in_base ++ [d] }
  | .out_full => { r with out_full := r.out_full ++ [d] }
  | .out_base => { r with out_base := r.out_base ++ [d] }
  | .video => { r with video := r.video ++ [d] }
  | .image => { r with image := r.image ++ [d] }

/-- The per-kind list of a `ParsedRecords` (empty for `head`, whose
record is stored singly). -/
def recsOf (r : ParsedRecords) : RecordTypeName → List Dict
  | .head => []
  | .in_full => r.in_full
  | .in_base => r.in_base
  | .out_full => r.out_full
  | .out_base => r.out_base
  | .video => r.video
  | .image => r.image

/-- The inner loop of `parse_log_data`: decode every offset of one track
at `offset + 1`, appending to that kind's list and counting. -/
def decodeOffsets (data : List Nat) (record_type : RecordTypeName) :
    List Nat → ParsedRecords → Nat → Except PyError (ParsedRecords × Nat)
  | [], records, total_records => .ok (records, total_records)
  | offset :: rest, records, total_records =>
    match parse_record data record_type (offset + 1) with
    | .error e => .error e
    | .ok (record, _) =>
      decodeOffsets data record_type rest (appendParsed records record_type record)
        (total_records + 1)

/-- Iteration order of `record_tracks.items()`: dict insertion order,
i.e. the value order of `RECORD_TYPE_MAP`. -/
def kindsOrder : List RecordTypeName :=
  [.out_full, .out_base, .in_full, .in_base, .head, .video, .image]

/-- The outer loop of `parse_log_data` over all tracks, skipping `head`. -/
def decodeTracksLoop (data : List Nat) (record_tracks : Tracks) :
    List RecordTypeName → ParsedRecords → Nat → Except PyError (ParsedRecords × Nat)
  | [], records, total_records => .ok (records, total_records)
  | record_type :: rest, records, total_records =>
    if record_type = .head then
      decodeTracksLoop data record_tracks rest records total_records
    else
      match decodeOffsets data record_type (Tracks.get record_tracks record_type).offsets
          records total_records with
      | .error e => .error e
      | .ok (records2, total2) => decodeTracksLoop data record_tracks rest records2 total2

/-- `ParseResult`. -/
structure ParseResult where
  filename : String
  header : Dict
  records : ParsedRecords
  record_tracks : Tracks
  total_records : Nat
deriving DecidableEq

/-- `parse_log_data`: validate the preamble (magic `AUTEL_FR`, version
3), scan all tracks, decode the header at the head track's first offset,
decode every non-head track at offset+1, and assemble the result. -/
def parse_log_data (in_data : List Nat) (filename : String) : Except PyError ParseResult :=
  match read_string in_data 0 8 with
  | .error e => .error e
  | .ok magic =>
  match read_uint32 in_data 8 with
  | .error e => .error e
  | .ok version =>
  if magic ≠ "AUTEL_FR" then .error (.valueError ("Invalid magic: " ++ magic))
  else if version ≠ 3 then .error (.valueError ("Unsupported version: " ++ toString version))
  else
    match get_record_tracks in_data with
    | .error e => .error e
    | .ok record_tracks =>
      match (Tracks.get record_tracks .head).offsets with
      | [] => .error .indexError
      | header_offset :: _ =>
        match parse_record in_data .head header_offset with
        | .error e => .error e
        | .ok (header, _) =>
          match decodeTracksLoop in_data record_tracks kindsOrder
              ⟨header, [], [], [], [], [], []⟩ 0 with
          | .error e => .error e
          | .ok (records, total_records) =>
            .ok ⟨filename, header, records, record_tracks, total_records⟩

/-- The concrete total record sizes the catalog yields. -/
def recSizeI : RecordTypeName → Int
  | .head => 156
  | .video => 84
  | .image => 80
  | .in_base => 106
  | .in_full => 238
  | .out_base => 114
  | .out_full => 268

/-- Total record size as a natural number. -/
def recSize (k : RecordTypeName) : Nat := (recSizeI k).toNat

/-- The wire type tag of each kind, from `RECORD_TYPE_MAP`. -/
def tagOf : RecordTypeName → Nat
  | .out_full => 0
  | .out_base => 1
  | .in_full => 2
  | .in_base => 3
  | .head => 6
  | .video => 15
  | .image => 14

/-- One synthetic tagged record of the stream body: a kind plus its body
bytes. -/
structure RecSpec where
  kind : RecordTypeName
  body : List Nat
deriving DecidableEq

/-- A synthetic record is well-formed when its body has exactly the
kind's total size. -/
def wfRecs (rs : List RecSpec) : Prop :=
  ∀ r ∈ rs, r.body.length = recSize r.kind

instance (rs : List RecSpec) : Decidable (wfRecs rs) := by
  unfold wfRecs; infer_instance

/-- The byte image of a sequence of tagged records. -/
def bodyBuf : List RecSpec → List Nat
  | [] => []
  | r :: rest => (tagOf r.kind :: r.body) ++ bodyBuf rest

/-- The kinds and starting offsets the scanner should find for a record
sequence starting at `start`. -/
def scanPositions (start : Nat) : List RecSpec → List (RecordTypeName × Nat)
  | [] => []
  | r :: rest => (r.kind, start) :: scanPositions (start + recSize r.kind + 1) rest

/-- The offsets of one kind among those positions. -/
def kindOffsets (start : Nat) (rs : List RecSpec) (k : RecordTypeName) : List Nat :=
  (scanPositions start rs).filterMap (fun p => if p.1 = k then some p.2 else none)

/-- Little-endian encoding of `n` into `w` bytes. -/
def encU : Nat → Nat → List Nat
  | 0, _ => []
  | w + 1, n => n % 256 :: encU w (n / 256)

/-- Byte list of an ASCII string. -/
def asciiBytes (s : String) : List Nat := s.data.map Char.toNat

/-- A valid 12-byte preamble (magic `AUTEL_FR`, version 3) followed by
the two unread bytes 12 and 13. -/
def preamble14 : List Nat := asciiBytes "AUTEL_FR" ++ [3, 0, 0, 0] ++ [0, 0]

/-- A concrete well-formed head record: all static fields zero except
`firmware_size = 2`, followed by the two firmware bytes `"1."`. -/
def headBytes : List Nat := List.replicate 155 0 ++ [2, 0] ++ [49, 46]

/-- Preamble plus head record and nothing else: a minimal valid log. -/
def C1buf : List Nat := preamble14 ++ headBytes

lemma lookupTag_tagOf (k : RecordTypeName) : lookupTag (tagOf k) = some k := by
  cases k <;> decide

lemma recSizeI_toNat_succ (k : RecordTypeName) : (recSizeI k + 1).toNat = recSize k + 1 := by
  cases k <;> decide

lemma read_uint8_at_append (pre : List Nat) (b : Nat) (rest : List Nat) :
    read_uint8 (pre ++ b :: rest) pre.length = .ok b := by
  unfold read_uint8 read_bytes
  rw [if_pos (by simp)]
  rw [List.drop_left]
  simp [leVal, Except.map]

lemma get_record_type_at_append (pre : List Nat) (k : RecordTypeName) (rest : List Nat) :
    get_record_type_from_offset (pre ++ tagOf k :: rest) pre.length = .ok k := by
  unfold get_record_type_from_offset
  rw [read_uint8_at_append]
  simp [lookupTag_tagOf]

lemma Tracks.get_set_self (t : Tracks) (k : RecordTypeName) (tr : RecordTrack) :
    Tracks.get (Tracks.set t k tr) k = tr := by
  cases k <;> rfl

lemma Tracks.get_set_ne (t : Tracks) (k k2 : RecordTypeName) (tr : RecordTrack)
    (h : k2 ≠ k) : Tracks.get (Tracks.set t k tr) k2 = Tracks.get t k2 := by
  cases k <;> cases k2 <;> simp_all [Tracks.set, Tracks.get]

lemma appendTrack_get_self (t : Tracks) (k : RecordTypeName) (off : Nat) :
    Tracks.get (appendTrack t k off) k =
      { Tracks.get t k with offsets := (Tracks.get t k).offsets ++ [off] } := by
  unfold appendTrack; rw [Tracks.get_set_self]

lemma appendTrack_get_ne (t : Tracks) (k k2 : RecordTypeName) (off : Nat) (h : k2 ≠ k) :
    Tracks.get (appendTrack t k off) k2 = Tracks.get t k2 := by
  unfold appendTrack; rw [Tracks.get_set_ne _ _ _ _ h]

lemma appendTrack_get_size (t : Tracks) (k k2 : RecordTypeName) (off : Nat) :
    (Tracks.get (appendTrack t k off) k2).size = (Tracks.get t k2).size := by
  by_cases h : k2 = k
  · subst h; rw [appendTrack_get_self]
  · rw [appendTrack_get_ne _ _ _ _ h]

/-- The scan loop returns immediately once the offset reaches or passes
the end of the buffer. -/
lemma scanLoop_exit (data : List Nat) (fuel : Nat) (t : Tracks) (off : Nat)
    (h : data.length ≤ off) : scanLoop data (fuel + 1) t off = .ok t := by
  simp [scanLoop, Nat.not_lt.mpr h]

/-- `RecordTrack` with a list of offsets appended. -/
def appOffsets (tr : RecordTrack) (l : List Nat) : RecordTrack :=
  { tr with offsets := tr.offsets ++ l }

/-- The tracks the scanner should produce for a synthetic record
sequence at `start`, starting from tracks `t`. -/
def mergeTracks (t : Tracks) (start : Nat) (rs : List RecSpec) : Tracks :=
  ⟨appOffsets t.out_full (kindOffsets start rs .out_full),
   appOffsets t.out_base (kindOffsets start rs .out_base),
   appOffsets t.in_full (kindOffsets start rs .in_full),
   appOffsets t.in_base (kindOffsets start rs .in_base),
   appOffsets t.head (kindOffsets start rs .head),
   appOffsets t.video (kindOffsets start rs .video),
   appOffsets t.image (kindOffsets start rs .image)⟩

lemma kindOffsets_nil (s : Nat) (k : RecordTypeName) : kindOffsets s [] k = [] := rfl

lemma kindOffsets_cons (s : Nat) (r : RecSpec) (rs : List RecSpec) (k : RecordTypeName) :
    kindOffsets s (r :: rs) k =
      (if r.kind = k then [s] else []) ++ kindOffsets (s + recSize r.kind + 1) rs k := by
  unfold kindOffsets
  rw [show scanPositions s (r :: rs)
    = (r.kind, s) :: scanPositions (s + recSize r.kind + 1) rs from rfl]
  simp only [List.filterMap_cons]
  split <;> simp_all

lemma mergeTracks_nil (t : Tracks) (s : Nat) : mergeTracks t s [] = t := by
  cases t
  simp [mergeTracks, appOffsets, kindOffsets_nil]

lemma mergeTracks_cons (t : Tracks) (s : Nat) (k : RecordTypeName) (b : List Nat)
    (rs : List RecSpec) :
    mergeTracks t s (⟨k, b⟩ :: rs) = mergeTracks (appendTrack t k s) (s + recSize k + 1) rs := by
  cases t
  cases k <;>
    simp [mergeTracks, appendTrack, Tracks.set, Tracks.get, appOffsets, kindOffsets_cons]

/-- Main scan-loop characterisation: scanning a well-formed synthetic
record sequence laid out after `pre` appends exactly the expected
per-kind offsets. -/
lemma scanLoop_spec (rs : List RecSpec) : ∀ (pre : List Nat) (t : Tracks) (fuel : Nat),
    wfRecs rs → (∀ k, (Tracks.get t k).size = recSizeI k) → rs.length < fuel →
    scanLoop (pre ++ bodyBuf rs) fuel t pre.length = .ok (mergeTracks t pre.length rs) := by
  induction rs with
  | nil =>
    intro pre t fuel _ _ hfuel
    cases fuel with
    | zero => omega
    | succ f =>
      rw [mergeTracks_nil]
      apply scanLoop_exit
      simp [bodyBuf]
  | cons r rest ih =>
    intro pre t fuel hwf hsz hfuel
    cases fuel with
    | zero => omega
    | succ f =>
      have hbody : r.body.length = recSize r.kind := hwf r (by simp)
      have hdata : pre ++ bodyBuf (r :: rest)
          = pre ++ tagOf r.kind :: (r.body ++ bodyBuf rest) := by
        simp [bodyBuf]
      rw [hdata]
      rw [scanLoop]
      rw [if_pos (by simp)]
      rw [get_record_type_at_append]
      dsimp only
      have hsz2 : (Tracks.get (appendTrack t r.kind pre.length) r.kind).size
          = recSizeI r.kind := by rw [appendTrack_get_size]; exact hsz r.kind
      rw [hsz2, recSizeI_toNat_succ]
      have hlen2 : pre.length + (recSize r.kind + 1)
          = (pre ++ tagOf r.kind :: r.body).length := by
        simp [hbody]
      have hep : pre ++ tagOf r.kind :: (r.body ++ bodyBuf rest)
          = (pre ++ tagOf r.kind :: r.body) ++ bodyBuf rest := by simp
      rw [hlen2, hep]
      rw [ih (pre ++ tagOf r.kind :: r.body) (appendTrack t r.kind pre.length) f
        (fun x hx => hwf x (by simp [hx]))
        (fun k => by rw [appendTrack_get_size]; exact hsz k)
        (by simp at hfuel; omega)]
      rw [← hlen2]
      rw [show pre.length + (recSize r.kind + 1) = pre.length + recSize r.kind + 1 from by omega]
      rw [← mergeTracks_cons t pre.length r.kind r.body rest]

lemma scanPositions_length (rs : List RecSpec) : ∀ s, (scanPositions s rs).length = rs.length := by
  induction rs with
  | nil => intro s; rfl
  | cons r rest ih => intro s; simp [scanPositions, ih]

lemma scanPositions_zero (rs : List RecSpec) (s : Nat) (p : RecordTypeName × Nat)
    (h : (scanPositions s rs)[0]? = some p) : p.2 = s := by
  cases rs with
  | nil => simp [scanPositions] at h
  | cons r rest =>
    simp [scanPositions] at h
    rw [← h]

lemma scanPositions_chain (rs : List RecSpec) : ∀ (s i : Nat) (p q : RecordTypeName × Nat),
    (scanPositions s rs)[i]? = some p → (scanPositions s rs)[i + 1]? = some q →
    q.2 = p.2 + recSize p.1 + 1 := by
  induction rs with
  | nil => intro s i p q hp _; simp [scanPositions] at hp
  | cons r rest ih =>
    intro s i p q hp hq
    cases i with
    | zero =>
      simp [scanPositions] at hp hq
      have h2 := scanPositions_zero rest (s + recSize r.kind + 1) q hq
      subst hp
      simpa using h2
    | succ j =>
      simp only [scanPositions, List.getElem?_cons_succ] at hp hq
      exact ih _ j p q hp hq

lemma kindsOrder_count_one (k0 : RecordTypeName) :
    ((kindsOrder.map (fun k => if k0 = k then 1 else 0)).sum) = 1 := by
  cases k0 <;> decide

lemma kindOffsets_total (rs : List RecSpec) : ∀ s,
    ((kindsOrder.map (fun k => (kindOffsets s rs k).length)).sum) = rs.length := by
  induction rs with
  | nil => intro s; simp [kindsOrder, kindOffsets_nil]
  | cons r rest ih =>
    intro s
    have h1 := ih (s + recSize r.kind + 1)
    simp only [kindOffsets_cons, List.length_append]
    simp only [kindsOrder, List.map_cons, List.map_nil, List.sum_cons, List.sum_nil]
      at h1 ⊢
    cases hk : r.kind <;> simp only [hk] at h1 ⊢ <;> simp at h1 ⊢ <;> omega

lemma scanLoop_keeps_first (data : List Nat) : ∀ (fuel : Nat) (t : Tracks) (off : Nat)
    (res : Tracks), scanLoop data fuel t off = .ok res →
    ∀ (k : RecordTypeName) (a : Nat) (l : List Nat), (Tracks.get t k).offsets = a :: l →
    ∃ l2, (Tracks.get res k).offsets = a :: l2 := by
  intro fuel
  induction fuel with
  | zero => intro t off res h; simp [scanLoop] at h
  | succ f ih =>
    intro t off res h k a l hak
    rw [scanLoop] at h
    by_cases hlt : off < data.length
    · rw [if_pos hlt] at h
      cases hg : get_record_type_from_offset data off with
      | error e => rw [hg] at h; simp at h
      | ok rt =>
        rw [hg] at h
        dsimp only at h
        by_cases hk : k = rt
        · subst hk
          exact ih _ _ _ h k a (l ++ [off])
            (by rw [appendTrack_get_self]; simp [hak])
        · exact ih _ _ _ h k a l (by rw [appendTrack_get_ne _ _ _ _ hk]; exact hak)
    · rw [if_neg hlt] at h
      have ht := Except.ok.inj h
      subst ht
      exact ⟨l, hak⟩

lemma scanLoop_size_const (data : List Nat) : ∀ (fuel : Nat) (t : Tracks) (off : Nat)
    (res : Tracks), scanLoop data fuel t off = .ok res →
    ∀ (k : RecordTypeName), (Tracks.get res k).size = (Tracks.get t k).size := by
  intro fuel
  induction fuel with
  | zero => intro t off res h; simp [scanLoop] at h
  | succ f ih =>
    intro t off res h k
    rw [scanLoop] at h
    by_cases hlt : off < data.length
    · rw [if_pos hlt] at h
      cases hg : get_record_type_from_offset data off with
      | error e => rw [hg] at h; simp at h
      | ok rt =>
        rw [hg] at h
        dsimp only at h
        rw [ih _ _ _ h k, appendTrack_get_size]
    · rw [if_neg hlt] at h
      have ht := Except.ok.inj h
      subst ht
      rfl

/-- The tracks dict as first initialised (sizes from
`get_total_record_size`, all offset lists empty). -/
def initialTracks : Tracks :=
  ⟨⟨.out_full, 268, []⟩, ⟨.out_base, 114, []⟩, ⟨.in_full, 238, []⟩, ⟨.in_base, 106, []⟩,
   ⟨.head, 156, []⟩, ⟨.video, 84, []⟩, ⟨.image, 80, []⟩⟩

lemma initTracks_eq : initTracks = .ok initialTracks := by decide

lemma bodyBuf_length_ge (rs : List RecSpec) : rs.length ≤ (bodyBuf rs).length := by
  induction rs with
  | nil => simp [bodyBuf]
  | cons r rest ih => simp [bodyBuf]; omega

lemma mergeTracks_get (t : Tracks) (s : Nat) (rs : List RecSpec) (k : RecordTypeName) :
    Tracks.get (mergeTracks t s rs) k = appOffsets (Tracks.get t k) (kindOffsets s rs k) := by
  cases k <;> rfl

/-- `get_record_tracks` on a synthetic buffer: head parse hypothesis plus
a well-formed tagged body after it. -/
lemma get_record_tracks_eq (data pre : List Nat) (rs : List RecSpec) (hd : Dict)
    (hdata : data = pre ++ bodyBuf rs) (hwf : wfRecs rs)
    (hhead : parse_record data .head 14 = .ok (hd, pre.length)) :
    get_record_tracks data
      = .ok (mergeTracks (appendTrack initialTracks .head 14) pre.length rs) := by
  unfold get_record_tracks
  rw [hhead, initTracks_eq]
  dsimp only
  subst hdata
  apply scanLoop_spec rs pre _ _ hwf
  · intro k
    rw [appendTrack_get_size]
    cases k <;> rfl
  · have := bodyBuf_length_ge rs
    simp only [List.length_append]
    omega

/-- The correctness contract of the Record Track Scanner on a synthetic
buffer `pre ++ body(rs)`: the per-kind tracks hold exactly the expected
offsets (head seeded with 14), consecutive scan positions advance by
`size + 1`, and the loop exits as soon as the offset reaches the end. -/
def ScanSpec (data pre : List Nat) (rs : List RecSpec) : Prop :=
  (∃ T, get_record_tracks data = .ok T ∧
    (∀ k, (Tracks.get T k).offsets
      = (if k = RecordTypeName.head then [14] else []) ++ kindOffsets pre.length rs k) ∧
    (∀ k, (Tracks.get T k).size = recSizeI k)) ∧
  ((kindsOrder.map (fun k => (kindOffsets pre.length rs k).length)).sum = rs.length) ∧
  ((scanPositions pre.length rs).length = rs.length) ∧
  (∀ p : RecordTypeName × Nat, (scanPositions pre.length rs)[0]? = some p → p.2 = pre.length) ∧
  (∀ (i : Nat) (p q : RecordTypeName × Nat), (scanPositions pre.length rs)[i]? = some p →
    (scanPositions pre.length rs)[i + 1]? = some q → q.2 = p.2 + recSize p.1 + 1) ∧
  (∀ (t : Tracks) (off fuel : Nat), data.length ≤ off → scanLoop data (fuel + 1) t off = .ok t)

/-- C5: for a synthetic buffer of N well-formed tagged records laid out
after the head record, the scanner recovers exactly those N offsets in
the correct per-kind tracks, consecutive offsets differ by
`size(kind) + 1`, and the loop terminates exactly at the buffer end. -/
theorem C5_scan_round_trip (data pre : List Nat) (rs : List RecSpec) (hd : Dict)
    (hdata : data = pre ++ bodyBuf rs) (hwf : wfRecs rs)
    (hhead : parse_record data .head 14 = .ok (hd, pre.length)) :
    ScanSpec data pre rs := by
  refine ⟨⟨_, get_record_tracks_eq data pre rs hd hdata hwf hhead, ?_, ?_⟩,
    kindOffsets_total rs pre.length, scanPositions_length rs pre.length,
    fun p hp => scanPositions_zero rs pre.length p hp,
    fun i p q hp hq => scanPositions_chain rs pre.length i p q hp hq,
    fun t off fuel hoff => scanLoop_exit data fuel t off hoff⟩
  · intro k
    rw [mergeTracks_get]
    cases k <;> simp [appOffsets, appendTrack, Tracks.set, Tracks.get, initialTracks]
  · intro k
    rw [mergeTracks_get]
    cases k <;> rfl

def C5rs : List RecSpec := [⟨.image, List.replicate 80 0⟩, ⟨.video, List.replicate 84 0⟩]

def C5pre : List Nat := preamble14 ++ headBytes

def C5data : List Nat := C5pre ++ bodyBuf C5rs

def C5hd : Dict :=
  match parse_record C5data .head 14 with
  | .ok (d, _) => d
  | .error _ => []

theorem C5_scan_round_trip_witness : ScanSpec C5data C5pre C5rs :=
  C5_scan_round_trip C5data C5pre C5rs C5hd rfl (by decide) (by decide)

/-- C4: a tag byte that is not a key of the type-tag map aborts the scan
with an error carrying the tag value, its offset, and the surrounding
raw bytes `data[offset-10 : offset+10]`. -/
theorem C4_unknown_tag_fatal (data : List Nat) (t : Tracks) (offset fuel tag : Nat)
    (hlt : offset < data.length) (hread : read_uint8 data offset = .ok tag)
    (hmap : lookupTag tag = none) :
    scanLoop data (fuel + 1) t offset
      = .error (.unknownRecordType tag offset
          (pySlice data ((offset : Int) - 10) ((offset : Int) + 10))) := by
  rw [scanLoop, if_pos hlt]
  unfold get_record_type_from_offset
  rw [hread]
  dsimp only
  rw [hmap]

/-- Valid preamble and valid head record followed by a single unmapped
tag byte `7`. -/
def C4buf : List Nat := preamble14 ++ headBytes ++ [7]

theorem C4_unknown_tag_fatal_witness :
    173 < C4buf.length ∧
    scanLoop C4buf 5 (appendTrack initialTracks .head 14) 173
      = .error (.unknownRecordType 7 173 [0, 0, 0, 0, 0, 0, 2, 0, 49, 46, 7]) ∧
    parse_log_data C4buf "flight.log"
      = .error (.unknownRecordType 7 173 [0, 0, 0, 0, 0, 0, 2, 0, 49, 46, 7]) := by
  refine ⟨by decide, ?_, by decide⟩
  rw [C4_unknown_tag_fatal C4buf (appendTrack initialTracks .head 14) 173 4 7
    (by decide) (by decide) (by decide)]
  decide

/-- C2 counterexample: the type-tag map has seven entries, not six, and
tag 6 does dispatch to `head`. -/
theorem C2_tag_map_counterexample :
    RECORD_TYPE_MAP.length = 7 ∧ lookupTag 6 = some RecordTypeName.head := by decide

/-- C2 amended: the static type-tag map has exactly seven entries — one
per record kind, `head` included at tag 6 — with pairwise-distinct tags
and pairwise-distinct kinds (a bijection between the seven tag values
and the seven kinds), and every kind's tag maps back to that kind. -/
theorem C2_tag_map_amended :
    RECORD_TYPE_MAP.length = 7 ∧
    (RECORD_TYPE_MAP.map Prod.fst).Nodup ∧
    (RECORD_TYPE_MAP.map Prod.snd).Nodup ∧
    (∀ k : RecordTypeName, lookupTag (tagOf k) = some k) := by
  refine ⟨by decide, by decide, by decide, fun k => lookupTag_tagOf k⟩

lemma sumKeysLoop_ok (keys : List String) : ∀ acc : Int,
    (∀ key ∈ keys, RECORD_SIZES key ≠ some 0 ∧ RECORD_SIZES key ≠ none) →
    ∃ n, sumKeysLoop keys acc = .ok n := by
  induction keys with
  | nil => intro acc _; exact ⟨acc, rfl⟩
  | cons key rest ih =>
    intro acc hk
    have hkey := hk key (by simp)
    unfold sumKeysLoop
    cases hs : RECORD_SIZES key with
    | none => exact absurd hs hkey.2
    | some z =>
      dsimp only
      have hz : ¬z = 0 := by
        intro hz0
        exact hkey.1 (by rw [hs, hz0])
      rw [if_neg hz]
      exact ih (acc + z) (fun x hx => hk x (by simp [hx]))

/-- C10: the per-kind total-size computation raises only on a width of
exactly 0; `firmware_info` has width -1, passes the check and is summed,
so the head total is the static sum 157 minus 1 = 156, never raises, and
is the size stored in the head track by `get_record_tracks`. -/
theorem C10_head_size :
    RECORD_SIZES "firmware_info" = some (-1) ∧
    sumKeysLoop (HeadKeys.filter (fun k => k != "firmware_info")) 0 = .ok 157 ∧
    get_total_record_size .head = .ok (157 - 1) ∧
    (∀ k : RecordTypeName, ∃ n, get_total_record_size k = .ok n) ∧
    (∀ keys : List String,
      (∀ key ∈ keys, RECORD_SIZES key ≠ some 0 ∧ RECORD_SIZES key ≠ none) →
      ∃ n, sumKeysLoop keys 0 = .ok n) ∧
    (∀ (data : List Nat) (tr : Tracks), get_record_tracks data = .ok tr →
      (Tracks.get tr .head).size = 156) := by
  refine ⟨by decide, by decide, by decide, ?_, fun keys hk => sumKeysLoop_ok keys 0 hk, ?_⟩
  · intro k
    cases k
    exacts [⟨156, by decide⟩, ⟨84, by decide⟩, ⟨80, by decide⟩, ⟨106, by decide⟩,
      ⟨238, by decide⟩, ⟨114, by decide⟩, ⟨268, by decide⟩]
  · intro data tr h
    unfold get_record_tracks at h
    cases hph : parse_record data .head 14 with
    | error e => rw [hph] at h; cases h
    | ok pr0 =>
      rw [hph] at h
      obtain ⟨hd0, hoff0⟩ := pr0
      rw [initTracks_eq] at h
      dsimp only at h
      rw [scanLoop_size_const data _ _ _ _ h .head]
      rfl

/-- The tracks of the minimal valid log. -/
def C1tracks : Tracks :=
  match get_record_tracks C1buf with
  | .ok t => t
  | .error _ => initialTracks

theorem C10_head_size_witness :
    (∃ n, get_total_record_size RecordTypeName.head = .ok n) ∧
    (∃ n, sumKeysLoop ["drone_type"] 0 = .ok n) ∧
    (Tracks.get C1tracks .head).size = 156 :=
  ⟨C10_head_size.2.2.2.1 .head,
   C10_head_size.2.2.2.2.1 ["drone_type"] (by decide),
   C10_head_size.2.2.2.2.2 C1buf C1tracks (by decide)⟩

/-- C1 counterexample: on a minimal valid buffer the parse succeeds and
the head track holds exactly the offset 14, not 12. -/
theorem C1_head_offset_counterexample :
    Except.map (fun r => (Tracks.get r.record_tracks .head).offsets)
      (parse_log_data C1buf "flight.log") = .ok [14] ∧
    ([14] : List Nat) ≠ [12] := by decide

/-- C1 amended: every successful parse seeds the head track with offset
14 (two bytes past the 12-byte preamble) before the scan, the head
track's offset list starts with 14, and the header is the record decoded
at offset 14. -/
theorem C1_head_offset_amended (data : List Nat) (fn : String) (res : ParseResult)
    (h : parse_log_data data fn = .ok res) :
    (Tracks.get res.record_tracks .head).offsets.head? = some 14 ∧
    ∃ e, parse_record data .head 14 = .ok (res.header, e) := by
  unfold parse_log_data at h
  cases hm : read_string data 0 8 with
  | error e => rw [hm] at h; cases h
  | ok magic =>
  rw [hm] at h
  cases hv : read_uint32 data 8 with
  | error e => rw [hv] at h; cases h
  | ok version =>
  rw [hv] at h
  dsimp only at h
  by_cases h1 : magic ≠ "AUTEL_FR"
  · rw [if_pos h1] at h; cases h
  · rw [if_neg h1] at h
    by_cases h2 : version ≠ 3
    · rw [if_pos h2] at h; cases h
    · rw [if_neg h2] at h
      cases ht : get_record_tracks data with
      | error e => rw [ht] at h; cases h
      | ok tr =>
      rw [ht] at h
      dsimp only at h
      cases ho : (Tracks.get tr .head).offsets with
      | nil => rw [ho] at h; cases h
      | cons off0 offrest =>
      rw [ho] at h
      dsimp only at h
      cases hp : parse_record data .head off0 with
      | error e => rw [hp] at h; cases h
      | ok pr =>
      rw [hp] at h
      obtain ⟨header, off2⟩ := pr
      dsimp only at h
      cases hdec : decodeTracksLoop data tr kindsOrder ⟨header, [], [], [], [], [], []⟩ 0 with
      | error e => rw [hdec] at h; cases h
      | ok rt2 =>
      rw [hdec] at h
      obtain ⟨records, total⟩ := rt2
      dsimp only at h
      cases h
      unfold get_record_tracks at ht
      cases hph : parse_record data .head 14 with
      | error e => rw [hph] at ht; cases ht
      | ok pr0 =>
      rw [hph] at ht
      obtain ⟨hd0, hoff0⟩ := pr0
      rw [initTracks_eq] at ht
      dsimp only at ht
      obtain ⟨l2, hfirst⟩ := scanLoop_keeps_first data _ _ _ _ ht .head 14 [] (by rfl)
      rw [ho] at hfirst
      have h14 : off0 = 14 := (List.cons.injEq _ _ _ _ ▸ hfirst).1
      constructor
      · dsimp only
        rw [ho, h14]
        rfl
      · dsimp only
        rw [h14] at hp
        rw [hph] at hp
        simp only [Except.ok.injEq, Prod.mk.injEq] at hp
        exact ⟨hoff0, by rw [hp.1]⟩

lemma encU_length (w : Nat) : ∀ n, (encU w n).length = w := by
  induction w with
  | zero => intro n; rfl
  | succ w2 ih => intro n; simp [encU, ih]

lemma leVal_encU (w : Nat) : ∀ n, n < 256 ^ w → leVal (encU w n) = n := by
  induction w with
  | zero => intro n h; interval_cases n; rfl
  | succ w2 ih =>
    intro n h
    have hdiv : n / 256 < 256 ^ w2 := by
      rw [Nat.div_lt_iff_lt_mul (by norm_num)]
      calc n < 256 ^ (w2 + 1) := h
        _ = 256 ^ w2 * 256 := by ring
    show leVal (n % 256 :: encU w2 (n / 256)) = n
    have : leVal (n % 256 :: encU w2 (n / 256))
        = n % 256 + 256 * leVal (encU w2 (n / 256)) := rfl
    rw [this, ih (n / 256) hdiv, Nat.mod_add_div]

lemma read_bytes_at (pre mid suf : List Nat) (off len : Nat)
    (hoff : off = pre.length) (hlen : len = mid.length) :
    read_bytes (pre ++ mid ++ suf) off len = .ok mid := by
  subst hoff hlen
  unfold read_bytes
  rw [if_pos (by simp)]
  rw [List.append_assoc, List.drop_left, List.take_left]

lemma parse_record_item_u32i (data : List Nat) (off : Nat) (rt : RecordTypeName)
    (key : String) (hsz : RECORD_SIZES key = some 4) (hfmt : RECORD_FORMATS key = some "i")
    (v : Nat) (hread : read_uint32 data off = .ok v) :
    parse_record_item data off rt key = .ok (.i v, 4, off + 4) := by
  unfold parse_record_item
  rw [hsz]
  dsimp only
  rw [hfmt]
  rw [if_neg (by norm_num), if_neg (by norm_num), if_neg (by norm_num), if_pos rfl]
  dsimp only
  rw [if_neg (by decide), if_pos rfl]
  rw [hread]
  rfl

/-- C3: the flight-dynamics timestamp-dedup rule of `parse_record`: with
the timestamp field listed twice in the decoded schema, the loop stores
the smaller of the two decoded occurrences and never raises. -/
theorem C3_timestamp_dedup (rt : RecordTypeName) (a b : Nat)
    (hrt : isFlightKind rt = true) (ha : a < 2 ^ 32) (hb : b < 2 ^ 32) :
    parseLoop (encU 4 a ++ encU 4 b) rt ["current_time", "current_time"] 0 []
      = .ok ([("current_time", Value.i (min a b))], 8) := by
  have h256 : (256 : Nat) ^ 4 = 2 ^ 32 := by norm_num
  have e1 : read_uint32 (encU 4 a ++ encU 4 b) 0 = .ok a := by
    unfold read_uint32
    have hbytes := read_bytes_at [] (encU 4 a) (encU 4 b) 0 4 rfl (by rw [encU_length])
    rw [List.nil_append] at hbytes
    rw [hbytes]
    simp [Except.map, leVal_encU 4 a (by rw [h256]; exact ha)]
  have e2 : read_uint32 (encU 4 a ++ encU 4 b) 4 = .ok b := by
    unfold read_uint32
    have hbytes := read_bytes_at (encU 4 a) (encU 4 b) [] 4 4
      (by rw [encU_length]) (by rw [encU_length])
    rw [List.append_nil] at hbytes
    rw [hbytes]
    simp [Except.map, leVal_encU 4 b (by rw [h256]; exact hb)]
  rw [parseLoop]
  rw [if_neg (by decide)]
  rw [parse_record_item_u32i (encU 4 a ++ encU 4 b) 0 rt "current_time"
    (by decide) (by decide) a e1]
  dsimp only
  rw [show (dictGet ([] : Dict) "current_time") = none from rfl]
  dsimp only
  rw [if_neg (by simp)]
  rw [show dictSet ([] : Dict) "current_time" (Value.i a) = [("current_time", Value.i a)]
    from rfl]
  rw [parseLoop]
  rw [if_neg (by decide)]
  rw [parse_record_item_u32i (encU 4 a ++ encU 4 b) 4 rt "current_time"
    (by decide) (by decide) b e2]
  dsimp only
  rw [show (dictGet [("current_time", Value.i a)] "current_time") = some (Value.i a)
    from rfl]
  dsimp only
  rw [hrt]
  by_cases hab : a = b
  · subst hab
    rw [show valNe (Value.i a) (Value.i a) = false from by simp [valNe]]
    rw [if_neg (by simp)]
    rw [show dictSet [("current_time", Value.i a)] "current_time" (Value.i a)
      = [("current_time", Value.i a)] from rfl]
    rw [parseLoop]
    simp
  · rw [show valNe (Value.i a) (Value.i b) = true from by simp [valNe, hab]]
    rw [show isNumeric (Value.i b) = true from rfl]
    rw [if_pos (by decide)]
    by_cases hlt : b < a
    · rw [show valGt (Value.i a) (Value.i b) = true from by simp [valGt, hlt]]
      rw [if_pos rfl]
      rw [show dictSet [("current_time", Value.i a)] "current_time" (Value.i b)
        = [("current_time", Value.i b)] from rfl]
      rw [parseLoop]
      rw [show min a b = b from by omega]
    · rw [show valGt (Value.i a) (Value.i b) = false from by simp [valGt]; omega]
      rw [if_neg (by simp)]
      rw [parseLoop]
      rw [show min a b = a from by omega]

theorem C3_timestamp_dedup_witness :
    parseLoop (encU 4 100 ++ encU 4 50) .in_base ["current_time", "current_time"] 0 []
        = .ok ([("current_time", Value.i 50)], 8) ∧
    parseLoop (encU 4 50 ++ encU 4 100) .in_base ["current_time", "current_time"] 0 []
        = .ok ([("current_time", Value.i 50)], 8) ∧
    parseLoop (encU 4 50 ++ encU 4 50) .in_base ["current_time", "current_time"] 0 []
        = .ok ([("current_time", Value.i 50)], 8) := by
  refine ⟨?_, ?_, ?_⟩
  · have h := C3_timestamp_dedup .in_base 100 50 (by decide) (by decide) (by decide)
    simpa using h
  · have h := C3_timestamp_dedup .in_base 50 100 (by decide) (by decide) (by decide)
    simpa using h
  · have h := C3_timestamp_dedup .in_base 50 50 (by decide) (by decide) (by decide)
    simpa using h

/-- The result of parsing the minimal valid log. -/
def C1res : ParseResult :=
  match parse_log_data C1buf "flight.log" with
  | .ok r => r
  | .error _ => ⟨"", [], ⟨[], [], [], [], [], [], []⟩, initialTracks, 0⟩

theorem C1_head_offset_witness :
    (Tracks.get C1res.record_tracks .head).offsets.head? = some 14 ∧
    ∃ e, parse_record C1buf .head 14 = .ok (C1res.header, e) :=
  C1_head_offset_amended C1buf "flight.log" C1res (by decide)

/-- C7: decoding the dynamic-width `firmware_info` field of the head
record aborts when the previously decoded `firmware_size` is ≤ 1, and
otherwise reads that many bytes as a null-truncated fixed string and
advances the offset by that size. -/
theorem C7_firmware_info (data : List Nat) (off : Nat) (result : Dict) (rest : List String)
    (n : Nat) (hfs : dictGet result "firmware_size" = some (.i n)) :
    (n ≤ 1 → parseLoop data .head ("firmware_info" :: rest) off result
        = .error (.assertionError ("Invalid firmware size: " ++ toString n))) ∧
    (∀ s : String, 1 < n → read_string data off (n : Int) = .ok s →
      parseLoop data .head ("firmware_info" :: rest) off result
        = parseLoop data .head rest (off + n) (dictSet result "firmware_info" (.s s))) := by
  constructor
  · intro hn
    rw [parseLoop, if_pos rfl, if_pos rfl, hfs]
    dsimp only
    rw [if_pos hn]
  · intro s hn hrs
    rw [parseLoop, if_pos rfl, if_pos rfl, hfs]
    dsimp only
    rw [if_neg (by omega), hrs]

theorem C7_firmware_info_witness :
    parseLoop [49, 46, 48, 0] .head ["firmware_info"] 0 [("firmware_size", Value.i 4)]
        = .ok ([("firmware_size", Value.i 4), ("firmware_info", Value.s "1.0")], 4) ∧
    parseLoop [49, 46, 48, 0] .head ["firmware_info"] 0 [("firmware_size", Value.i 0)]
        = .error (.assertionError "Invalid firmware size: 0") := by
  constructor
  · have h := (C7_firmware_info [49, 46, 48, 0] 0 [("firmware_size", Value.i 4)] [] 4
      (by decide)).2 "1.0" (by decide) (by decide)
    rw [h]
    decide
  · have h := (C7_firmware_info [49, 46, 48, 0] 0 [("firmware_size", Value.i 0)] [] 0
      (by decide)).1 (by decide)
    rw [h]
    decide

/-- C8: the top-level parse reads the 8-byte magic string and 4-byte
little-endian version, and fails with a file-format `ValueError` naming
the offending value whenever the magic is not `AUTEL_FR` or the version
is not 3, producing no result. -/
theorem C8_preamble_validation (data : List Nat) (fn magic : String) (version : Nat)
    (hm : read_string data 0 8 = .ok magic) (hv : read_uint32 data 8 = .ok version) :
    (magic ≠ "AUTEL_FR" → parse_log_data data fn
        = .error (.valueError ("Invalid magic: " ++ magic))) ∧
    (magic = "AUTEL_FR" → version ≠ 3 → parse_log_data data fn
        = .error (.valueError ("Unsupported version: " ++ toString version))) := by
  constructor
  · intro hmag
    unfold parse_log_data
    rw [hm]
    dsimp only
    rw [hv]
    dsimp only
    rw [if_pos hmag]
  · intro hmag hver
    unfold parse_log_data
    rw [hm]
    dsimp only
    rw [hv]
    dsimp only
    rw [if_neg (by simp [hmag]), if_pos hver]

def C8badmagic : List Nat := asciiBytes "BADMAGIC" ++ encU 4 3

def C8badversion : List Nat := asciiBytes "AUTEL_FR" ++ encU 4 7

theorem C8_preamble_validation_witness :
    parse_log_data C8badmagic "flight.log"
        = .error (.valueError "Invalid magic: BADMAGIC") ∧
    parse_log_data C8badversion "flight.log"
        = .error (.valueError "Unsupported version: 7") := by
  constructor
  · have h := (C8_preamble_validation C8badmagic "flight.log" "BADMAGIC" 3
      (by decide) (by decide)).1 (by decide)
    rw [h]
    decide
  · have h := (C8_preamble_validation C8badversion "flight.log" "AUTEL_FR" 7
      (by decide) (by decide)).2 rfl (by decide)
    rw [h]
    decide

lemma read_exact (bs : List Nat) (w : Nat) (h : bs.length = w) : read_bytes bs 0 w = .ok bs := by
  unfold read_bytes
  rw [if_pos (by omega)]
  rw [List.drop_zero, ← h, List.take_length]

lemma read_encU (w : Nat) (n : Nat) (hn : n < 256 ^ w) :
    (read_bytes (encU w n) 0 w).map leVal = .ok n := by
  rw [read_exact _ _ (encU_length w n)]
  simp [Except.map, leVal_encU w n hn]

lemma takeWhile_ne_append (xs : List Nat) (pad : Nat) (h : ∀ x ∈ xs, x ≠ 0) :
    (xs ++ List.replicate pad 0).takeWhile (fun b => b ≠ 0) = xs := by
  induction xs with
  | nil =>
    cases pad with
    | zero => rfl
    | succ p => simp [List.replicate]
  | cons x rest ih =>
    have hx := h x (by simp)
    rw [List.cons_append, List.takeWhile_cons, if_pos (by simpa using hx)]
    rw [ih (fun y hy => h y (by simp [hy]))]

set_option maxHeartbeats 2000000 in
lemma utf8_ascii (cs : List Char) (h : ∀ c ∈ cs, c.toNat < 128) :
    utf8Decode (cs.map Char.toNat) = some cs := by
  induction cs with
  | nil => rfl
  | cons c rest ih =>
    have hc := h c (by simp)
    rw [List.map_cons]
    unfold utf8Decode at ih ⊢
    rw [utf8Aux]
    rw [if_pos (show c.toNat < 0x80 by omega)]
    rw [ih (fun x hx => h x (by simp [hx]))]
    simp

lemma read_float_array_flatten (pats : List Nat) : ∀ (pre data : List Nat),
    data = pre ++ (pats.map (encU 4)).flatten → (∀ p ∈ pats, p < 2 ^ 32) →
    read_float_array data pre.length pats.length = .ok pats := by
  induction pats with
  | nil => intro pre data _ _; rfl
  | cons p rest ih =>
    intro pre data hdata hlt
    have h256 : (256 : Nat) ^ 4 = 2 ^ 32 := by norm_num
    have h1 : read_float32 data pre.length = .ok p := by
      unfold read_float32
      rw [hdata]
      rw [show pre ++ ((p :: rest).map (encU 4)).flatten
        = pre ++ encU 4 p ++ (rest.map (encU 4)).flatten from by simp]
      rw [read_bytes_at pre (encU 4 p) _ pre.length 4 rfl (by rw [encU_length])]
      simp [Except.map, leVal_encU 4 p (by rw [h256]; exact hlt p (by simp))]
    show read_float_array data pre.length (rest.length + 1) = .ok (p :: rest)
    rw [read_float_array, h1]
    dsimp only
    rw [show pre.length + 4 = (pre ++ encU 4 p).length from by simp [encU_length]]
    rw [ih (pre ++ encU 4 p) data (by rw [hdata]; simp)
      (fun x hx => hlt x (by simp [hx]))]

/-- C6: the single-field decoder selects the decoding by catalog width
and override format (1 → u8, 2 → u16, 4 → f32 / u32 / hex-u32, 8 → u64 /
f64, other N → null-truncated fixed string / packed f32 array), and each
decoding reproduces the exact encoded value (floats bit-exactly, as
little-endian bit patterns). -/
theorem C6_field_decoding :
    (∀ (key : String) (rt : RecordTypeName) (n : Nat),
      RECORD_SIZES key = some 1 → n < 2 ^ 8 →
      parse_record_item (encU 1 n) 0 rt key = .ok (.i n, 1, 1)) ∧
    (∀ (key : String) (rt : RecordTypeName) (n : Nat),
      RECORD_SIZES key = some 2 → n < 2 ^ 16 →
      parse_record_item (encU 2 n) 0 rt key = .ok (.i n, 2, 2)) ∧
    (∀ (key : String) (rt : RecordTypeName) (n : Nat),
      RECORD_SIZES key = some 4 → RECORD_FORMATS key = none → n < 2 ^ 32 →
      parse_record_item (encU 4 n) 0 rt key = .ok (.f32 n, 4, 4)) ∧
    (∀ (key : String) (rt : RecordTypeName) (n : Nat),
      RECORD_SIZES key = some 4 → RECORD_FORMATS key = some "i" → n < 2 ^ 32 →
      parse_record_item (encU 4 n) 0 rt key = .ok (.i n, 4, 4)) ∧
    (∀ (key : String) (rt : RecordTypeName) (n : Nat),
      RECORD_SIZES key = some 4 → RECORD_FORMATS key = some "h" → n < 2 ^ 32 →
      parse_record_item (encU 4 n) 0 rt key = .ok (.hexs (pyHex n), 4, 4)) ∧
    (∀ (key : String) (rt : RecordTypeName) (n : Nat),
      RECORD_SIZES key = some 8 →
      (RECORD_FORMATS key = none ∨ RECORD_FORMATS key = some "i") → n < 2 ^ 64 →
      parse_record_item (encU 8 n) 0 rt key = .ok (.i n, 8, 8)) ∧
    (∀ (key : String) (rt : RecordTypeName) (n : Nat) (f : String),
      RECORD_SIZES key = some 8 → RECORD_FORMATS key = some f → f ≠ "i" → n < 2 ^ 64 →
      parse_record_item (encU 8 n) 0 rt key = .ok (.f64 n, 8, 8)) ∧
    (∀ (key : String) (rt : RecordTypeName) (w : Int) (cs : List Char) (pad : Nat),
      RECORD_SIZES key = some w → RECORD_FORMATS key = none →
      ¬(w = 0 ∨ w = 1 ∨ w = 2 ∨ w = 4 ∨ w = 8) → 0 < w →
      (∀ c ∈ cs, 0 < c.toNat ∧ c.toNat < 128) →
      (cs.map Char.toNat).length + pad = w.toNat →
      parse_record_item (cs.map Char.toNat ++ List.replicate pad 0) 0 rt key
        = .ok (.s cs.asString, w, w.toNat)) ∧
    (∀ (key : String) (rt : RecordTypeName) (w : Int) (pats : List Nat),
      RECORD_SIZES key = some w → RECORD_FORMATS key = some "[f" →
      ¬(w = 0 ∨ w = 1 ∨ w = 2 ∨ w = 4 ∨ w = 8) →
      (∀ p ∈ pats, p < 2 ^ 32) → w = 4 * pats.length →
      parse_record_item ((pats.map (encU 4)).flatten) 0 rt key
        = .ok (.farr pats, w, w.toNat)) := by
  refine ⟨?_, ?_, ?_, ?_, ?_, ?_, ?_, ?_, ?_⟩
  · intro key rt n hsz hn
    unfold parse_record_item
    rw [hsz]
    dsimp only
    rw [if_neg (by norm_num), if_pos rfl]
    rw [show read_uint8 (encU 1 n) 0 = .ok n from read_encU 1 n (by simpa using hn)]
    rfl
  · intro key rt n hsz hn
    unfold parse_record_item
    rw [hsz]
    dsimp only
    rw [if_neg (by norm_num), if_neg (by norm_num), if_pos rfl]
    rw [show read_uint16 (encU 2 n) 0 = .ok n from read_encU 2 n (by norm_num at hn ⊢; omega)]
    rfl
  · intro key rt n hsz hfmt hn
    unfold parse_record_item
    rw [hsz]
    dsimp only
    rw [hfmt]
    rw [if_neg (by norm_num), if_neg (by norm_num), if_neg (by norm_num), if_pos rfl]
    dsimp only
    rw [show read_float32 (encU 4 n) 0 = .ok n from read_encU 4 n (by norm_num at hn ⊢; omega)]
    rfl
  · intro key rt n hsz hfmt hn
    unfold parse_record_item
    rw [hsz]
    dsimp only
    rw [hfmt]
    rw [if_neg (by norm_num), if_neg (by norm_num), if_neg (by norm_num), if_pos rfl]
    dsimp only
    rw [if_neg (by decide), if_pos rfl]
    rw [show read_uint32 (encU 4 n) 0 = .ok n from read_encU 4 n (by norm_num at hn ⊢; omega)]
    rfl
  · intro key rt n hsz hfmt hn
    unfold parse_record_item
    rw [hsz]
    dsimp only
    rw [hfmt]
    rw [if_neg (by norm_num), if_neg (by norm_num), if_neg (by norm_num), if_pos rfl]
    dsimp only
    rw [if_pos rfl]
    rw [show read_uint32 (encU 4 n) 0 = .ok n from read_encU 4 n (by norm_num at hn ⊢; omega)]
    rfl
  · intro key rt n hsz hfmt hn
    unfold parse_record_item
    rw [hsz]
    dsimp only
    rw [if_neg (by norm_num), if_neg (by norm_num), if_neg (by norm_num),
      if_neg (by norm_num), if_pos rfl]
    cases hfmt with
    | inl hf =>
      rw [hf]
      dsimp only
      rw [show read_uint64 (encU 8 n) 0 = .ok n from read_encU 8 n
        (by norm_num at hn ⊢; omega)]
      rfl
    | inr hf =>
      rw [hf]
      dsimp only
      rw [if_pos rfl]
      rw [show read_uint64 (encU 8 n) 0 = .ok n from read_encU 8 n
        (by norm_num at hn ⊢; omega)]
      rfl
  · intro key rt n f hsz hfmt hf hn
    unfold parse_record_item
    rw [hsz]
    dsimp only
    rw [hfmt]
    rw [if_neg (by norm_num), if_neg (by norm_num), if_neg (by norm_num),
      if_neg (by norm_num), if_pos rfl]
    dsimp only
    rw [if_neg hf]
    rw [show read_float64 (encU 8 n) 0 = .ok n from read_encU 8 n
      (by norm_num at hn ⊢; omega)]
    rfl
  · intro key rt w cs pad hsz hfmt hw hwpos hcs hlen
    unfold parse_record_item
    rw [hsz]
    dsimp only
    rw [hfmt]
    rw [if_neg (by omega), if_neg (by omega), if_neg (by omega), if_neg (by omega),
      if_neg (by omega)]
    dsimp only
    unfold read_string
    rw [if_neg (by omega)]
    rw [read_exact _ _ (by simpa using hlen)]
    dsimp only
    rw [takeWhile_ne_append (cs.map Char.toNat) pad
      (by intro x hx; simp at hx; obtain ⟨c, hc, hcx⟩ := hx; have := (hcs c hc).1; omega)]
    rw [utf8_ascii cs (fun c hc => (hcs c hc).2)]
    simp [Except.map]
  · intro key rt w pats hsz hfmt hw hlt hwlen
    unfold parse_record_item
    rw [hsz]
    dsimp only
    rw [hfmt]
    rw [if_neg (by omega), if_neg (by omega), if_neg (by omega), if_neg (by omega),
      if_neg (by omega)]
    dsimp only
    rw [if_pos rfl]
    rw [show (Int.fdiv w 4).toNat = pats.length from by
      rw [hwlen, Int.mul_fdiv_cancel_left _ (by norm_num)]; simp]
    rw [show (0 : Nat) = (([] : List Nat)).length from rfl]
    rw [read_float_array_flatten pats [] _ (by simp) hlt]
    simp [Except.map]

theorem C6_field_decoding_witness :
    parse_record_item (encU 1 200) 0 .head "drone_type" = .ok (.i 200, 1, 1) ∧
    parse_record_item (encU 2 513) 0 .head "image_count" = .ok (.i 513, 2, 2) ∧
    parse_record_item (encU 4 1065353216) 0 .head "distance"
      = .ok (.f32 1065353216, 4, 4) ∧
    parse_record_item (encU 4 123456) 0 .head "flight_time" = .ok (.i 123456, 4, 4) ∧
    parse_record_item (encU 4 26) 0 .out_full "drone_warning" = .ok (.hexs "0x1a", 4, 4) ∧
    parse_record_item (encU 8 1099511627776) 0 .head "flight_at"
      = .ok (.i 1099511627776, 8, 8) ∧
    parse_record_item (encU 8 4607182418800017408) 0 .in_base "phone_heading"
      = .ok (.f64 4607182418800017408, 8, 8) ∧
    parse_record_item ([65, 66] ++ List.replicate 16 0) 0 .head "aircraft_sn"
      = .ok (.s "AB", 18, 18) ∧
    parse_record_item (([1, 2, 3, 4, 5, 6, 7, 8].map (encU 4)).flatten) 0 .in_full
      "cell_voltages" = .ok (.farr [1, 2, 3, 4, 5, 6, 7, 8], 32, 32) :=
  ⟨C6_field_decoding.1 "drone_type" .head 200 (by decide) (by decide),
   C6_field_decoding.2.1 "image_count" .head 513 (by decide) (by decide),
   C6_field_decoding.2.2.1 "distance" .head 1065353216 (by decide) (by decide) (by decide),
   C6_field_decoding.2.2.2.1 "flight_time" .head 123456 (by decide) (by decide) (by decide),
   C6_field_decoding.2.2.2.2.1 "drone_warning" .out_full 26 (by decide) (by decide)
     (by decide),
   C6_field_decoding.2.2.2.2.2.1 "flight_at" .head 1099511627776 (by decide)
     (Or.inl (by decide)) (by decide),
   C6_field_decoding.2.2.2.2.2.2.1 "phone_heading" .in_base 4607182418800017408 "d"
     (by decide) (by decide) (by decide) (by decide),
   C6_field_decoding.2.2.2.2.2.2.2.1 "aircraft_sn" .head 18 ['A', 'B'] 16 (by decide)
     (by decide) (by decide) (by decide) (by decide) (by decide),
   C6_field_decoding.2.2.2.2.2.2.2.2 "cell_voltages" .in_full 32 [1, 2, 3, 4, 5, 6, 7, 8]
     (by decide) (by decide) (by decide) (by decide) (by decide)⟩

/-- The per-track decode specification: every offset of a track decoded
at `offset + 1` (skipping the tag byte), in track order. -/
def trackDecode (data : List Nat) (k : RecordTypeName) : List Nat → Option (List Dict)
  | [] => some []
  | off :: rest =>
    match parse_record data k (off + 1) with
    | .ok (d, _) => (trackDecode data k rest).map (fun ds => d :: ds)
    | .error _ => none

lemma appendParsed_head (r : ParsedRecords) (k : RecordTypeName) (d : Dict) :
    (appendParsed r k d).head = r.head := by
  cases k <;> rfl

lemma recsOf_appendParsed_self (r : ParsedRecords) (k : RecordTypeName) (d : Dict)
    (hk : k ≠ RecordTypeName.head) :
    recsOf (appendParsed r k d) k = recsOf r k ++ [d] := by
  cases k
  · exact absurd rfl hk
  all_goals rfl

lemma recsOf_appendParsed_ne (r : ParsedRecords) (k k2 : RecordTypeName) (d : Dict)
    (h : k2 ≠ k) : recsOf (appendParsed r k d) k2 = recsOf r k2 := by
  cases k <;> cases k2 <;> simp_all [appendParsed, recsOf]

lemma decodeOffsets_ok (data : List Nat) (k : RecordTypeName) :
    ∀ (offs : List Nat) (recs : ParsedRecords) (total : Nat) (recs2 : ParsedRecords)
      (total2 : Nat), decodeOffsets data k offs recs total = .ok (recs2, total2) →
    ∃ ds : List Dict,
      trackDecode data k offs = some ds ∧
      total2 = total + ds.length ∧
      recs2.head = recs.head ∧
      (k ≠ RecordTypeName.head → recsOf recs2 k = recsOf recs k ++ ds) ∧
      (∀ k2, k2 ≠ k → recsOf recs2 k2 = recsOf recs k2) := by
  intro offs
  induction offs with
  | nil =>
    intro recs total recs2 total2 h
    cases h
    exact ⟨[], rfl, by simp, rfl, fun _ => by simp, fun _ _ => rfl⟩
  | cons off rest ih =>
    intro recs total recs2 total2 h
    rw [decodeOffsets] at h
    cases hp : parse_record data k (off + 1) with
    | error e => rw [hp] at h; cases h
    | ok pr =>
      rw [hp] at h
      obtain ⟨d, o2⟩ := pr
      dsimp only at h
      obtain ⟨ds, hds, htot, hhead, hself, hne⟩ := ih _ _ _ _ h
      refine ⟨d :: ds, ?_, ?_, ?_, ?_, ?_⟩
      · rw [trackDecode, hp]
        dsimp only
        rw [hds]
        rfl
      · simp [htot]
        omega
      · rw [hhead, appendParsed_head]
      · intro hk
        rw [hself hk, recsOf_appendParsed_self _ _ _ hk]
        simp
      · intro k2 hk2
        rw [hne k2 hk2, recsOf_appendParsed_ne _ _ _ _ hk2]

/-- The assembly contract of `parse_log_data`: filename kept, the single
head record stored alongside the per-kind lists, every non-head track
decoded at `offset + 1` in track order, and `total_records` the sum of
the non-head list lengths. -/
def AssembleSpec (data : List Nat) (fn : String) (res : ParseResult) : Prop :=
  res.filename = fn ∧
  res.records.head = res.header ∧
  (∀ k, k ≠ RecordTypeName.head →
    trackDecode data k (Tracks.get res.record_tracks k).offsets
      = some (recsOf res.records k)) ∧
  res.total_records
    = (recsOf res.records .out_full).length + (recsOf res.records .out_base).length
      + (recsOf res.records .in_full).length + (recsOf res.records .in_base).length
      + (recsOf res.records .video).length + (recsOf res.records .image).length

/-- C9: every successful parse decodes each non-head track at its
offsets plus one, appends in track order, counts only non-head records,
and stores the head record singly. -/
theorem C9_assembly (data : List Nat) (fn : String) (res : ParseResult)
    (h : parse_log_data data fn = .ok res) : AssembleSpec data fn res := by
  unfold parse_log_data at h
  cases hm : read_string data 0 8 with
  | error e => rw [hm] at h; cases h
  | ok magic =>
  rw [hm] at h
  cases hv : read_uint32 data 8 with
  | error e => rw [hv] at h; cases h
  | ok version =>
  rw [hv] at h
  dsimp only at h
  by_cases h1 : magic ≠ "AUTEL_FR"
  · rw [if_pos h1] at h; cases h
  · rw [if_neg h1] at h
    by_cases h2 : version ≠ 3
    · rw [if_pos h2] at h; cases h
    · rw [if_neg h2] at h
      cases ht : get_record_tracks data with
      | error e => rw [ht] at h; cases h
      | ok tr =>
      rw [ht] at h
      dsimp only at h
      cases ho : (Tracks.get tr .head).offsets with
      | nil => rw [ho] at h; cases h
      | cons off0 offrest =>
      rw [ho] at h
      dsimp only at h
      cases hp : parse_record data .head off0 with
      | error e => rw [hp] at h; cases h
      | ok pr =>
      rw [hp] at h
      obtain ⟨header, off2⟩ := pr
      dsimp only at h
      cases hdec : decodeTracksLoop data tr kindsOrder ⟨header, [], [], [], [], [], []⟩ 0 with
      | error e => rw [hdec] at h; cases h
      | ok rt2 =>
      rw [hdec] at h
      obtain ⟨records, total⟩ := rt2
      dsimp only at h
      cases h
      rw [show kindsOrder = [RecordTypeName.out_full, RecordTypeName.out_base,
        RecordTypeName.in_full, RecordTypeName.in_base, RecordTypeName.head,
        RecordTypeName.video, RecordTypeName.image] from rfl] at hdec
      rw [decodeTracksLoop, if_neg (by decide)] at hdec
      cases hq1 : decodeOffsets data .out_full (Tracks.get tr .out_full).offsets
          ⟨header, [], [], [], [], [], []⟩ 0 with
      | error e => rw [hq1] at hdec; cases hdec
      | ok pr1 =>
      rw [hq1] at hdec
      obtain ⟨r1, t1⟩ := pr1
      dsimp only at hdec
      rw [decodeTracksLoop, if_neg (by decide)] at hdec
      cases hq2 : decodeOffsets data .out_base (Tracks.get tr .out_base).offsets r1 t1 with
      | error e => rw [hq2] at hdec; cases hdec
      | ok pr2 =>
      rw [hq2] at hdec
      obtain ⟨r2, t2⟩ := pr2
      dsimp only at hdec
      rw [decodeTracksLoop, if_neg (by decide)] at hdec
      cases hq3 : decodeOffsets data .in_full (Tracks.get tr .in_full).offsets r2 t2 with
      | error e => rw [hq3] at hdec; cases hdec
      | ok pr3 =>
      rw [hq3] at hdec
      obtain ⟨r3, t3⟩ := pr3
      dsimp only at hdec
      rw [decodeTracksLoop, if_neg (by decide)] at hdec
      cases hq4 : decodeOffsets data .in_base (Tracks.get tr .in_base).offsets r3 t3 with
      | error e => rw [hq4] at hdec; cases hdec
      | ok pr4 =>
      rw [hq4] at hdec
      obtain ⟨r4, t4⟩ := pr4
      dsimp only at hdec
      rw [decodeTracksLoop, if_pos rfl] at hdec
      rw [decodeTracksLoop, if_neg (by decide)] at hdec
      cases hq5 : decodeOffsets data .video (Tracks.get tr .video).offsets r4 t4 with
      | error e => rw [hq5] at hdec; cases hdec
      | ok pr5 =>
      rw [hq5] at hdec
      obtain ⟨r5, t5⟩ := pr5
      dsimp only at hdec
      rw [decodeTracksLoop, if_neg (by decide)] at hdec
      cases hq6 : decodeOffsets data .image (Tracks.get tr .image).offsets r5 t5 with
      | error e => rw [hq6] at hdec; cases hdec
      | ok pr6 =>
      rw [hq6] at hdec
      obtain ⟨r6, t6⟩ := pr6
      dsimp only at hdec
      rw [decodeTracksLoop] at hdec
      cases hdec
      obtain ⟨ds1, hd1, ht1, hh1, hs1, hn1⟩ := decodeOffsets_ok data .out_full _ _ _ _ _ hq1
      obtain ⟨ds2, hd2, ht2, hh2, hs2, hn2⟩ := decodeOffsets_ok data .out_base _ _ _ _ _ hq2
      obtain ⟨ds3, hd3, ht3, hh3, hs3, hn3⟩ := decodeOffsets_ok data .in_full _ _ _ _ _ hq3
      obtain ⟨ds4, hd4, ht4, hh4, hs4, hn4⟩ := decodeOffsets_ok data .in_base _ _ _ _ _ hq4
      obtain ⟨ds5, hd5, ht5, hh5, hs5, hn5⟩ := decodeOffsets_ok data .video _ _ _ _ _ hq5
      obtain ⟨ds6, hd6, htotal, hh6, hs6, hn6⟩ := decodeOffsets_ok data .image _ _ _ _ _ hq6
      have e1 : recsOf records .out_full = ds1 := by
        rw [hn6 _ (by decide), hn5 _ (by decide), hn4 _ (by decide), hn3 _ (by decide),
          hn2 _ (by decide), hs1 (by decide)]
        rfl
      have e2 : recsOf records .out_base = ds2 := by
        rw [hn6 _ (by decide), hn5 _ (by decide), hn4 _ (by decide), hn3 _ (by decide),
          hs2 (by decide), hn1 _ (by decide)]
        rfl
      have e3 : recsOf records .in_full = ds3 := by
        rw [hn6 _ (by decide), hn5 _ (by decide), hn4 _ (by decide), hs3 (by decide),
          hn2 _ (by decide), hn1 _ (by decide)]
        rfl
      have e4 : recsOf records .in_base = ds4 := by
        rw [hn6 _ (by decide), hn5 _ (by decide), hs4 (by decide), hn3 _ (by decide),
          hn2 _ (by decide), hn1 _ (by decide)]
        rfl
      have e5 : recsOf records .video = ds5 := by
        rw [hn6 _ (by decide), hs5 (by decide), hn4 _ (by decide), hn3 _ (by decide),
          hn2 _ (by decide), hn1 _ (by decide)]
        rfl
      have e6 : recsOf records .image = ds6 := by
        rw [hs6 (by decide), hn5 _ (by decide), hn4 _ (by decide), hn3 _ (by decide),
          hn2 _ (by decide), hn1 _ (by decide)]
        rfl
      refine ⟨rfl, ?_, ?_, ?_⟩
      · show records.head = header
        rw [hh6, hh5, hh4, hh3, hh2, hh1]
      · intro k hk
        cases k with
        | head => exact absurd rfl hk
        | out_full => rw [show recsOf records RecordTypeName.out_full = ds1 from e1]; exact hd1
        | out_base => rw [show recsOf records RecordTypeName.out_base = ds2 from e2]; exact hd2
        | in_full => rw [show recsOf records RecordTypeName.in_full = ds3 from e3]; exact hd3
        | in_base => rw [show recsOf records RecordTypeName.in_base = ds4 from e4]; exact hd4
        | video => rw [show recsOf records RecordTypeName.video = ds5 from e5]; exact hd5
        | image => rw [show recsOf records RecordTypeName.image = ds6 from e6]; exact hd6
      · show total = _
        have l1 : (recsOf records RecordTypeName.out_full).length = ds1.length := by rw [e1]
        have l2 : (recsOf records RecordTypeName.out_base).length = ds2.length := by rw [e2]
        have l3 : (recsOf records RecordTypeName.in_full).length = ds3.length := by rw [e3]
        have l4 : (recsOf records RecordTypeName.in_base).length = ds4.length := by rw [e4]
        have l5 : (recsOf records RecordTypeName.video).length = ds5.length := by rw [e5]
        have l6 : (recsOf records RecordTypeName.image).length = ds6.length := by rw [e6]
        dsimp only
        omega

def C9buf : List Nat :=
  preamble14 ++ headBytes ++ (14 :: List.replicate 80 0) ++ (15 :: List.replicate 84 0)

def C9res : ParseResult :=
  match parse_log_data C9buf "flight.log" with
  | .ok r => r
  | .error _ => ⟨"", [], ⟨[], [], [], [], [], [], []⟩, initialTracks, 0⟩

theorem C9_assembly_witness : AssembleSpec C9buf "flight.log" C9res :=
  C9_assembly C9buf "flight.log" C9res (by decide)
